import Mathlib

/-!
# Verification of the PlentyMarkets API client core (`plenty_api/api.py`)

Shallow embedding of the pagination-aware fetch engine, the request
executor and the authenticator of `src/plenty_api/api.py`, together with
proofs of the specification claims about them.

Modelling conventions:
* JSON values that the engine inspects are modelled by `Resp`:
  `null` (Python `None` / JSON `null`), an empty mapping, a mapping with
  an `error` key, a flat list of records, or a standard paginated mapping
  (`Page`).  Records themselves are opaque and modelled as `Nat` ids.
* Python truthiness (`if not response`) is `Resp.falsy`.
* The network is a pure function supplied as a parameter (`server`):
  the decoded JSON value returned for a given query.  Loops that the
  source runs without a bound (`while True`) take a fuel argument; fuel
  exhaustion is the explicit outcome `FetchResult.crash`, which also
  models an uncaught Python exception (`KeyError`/`TypeError`).
* Functions return, next to their result, the list of queries they
  issued to the server, so that request counts and the queries' `page` /
  `itemsPerPage` keys are observable.
* `utils.sniff_response_format`, `utils.build_login_token` and
  `utils.get_language` live in `plenty_api/utils.py`, which is not part
  of the sources; they are modelled from the spec where marked.
-/

namespace PlentyApi

/-- One page of the standard paginated response shape: the record list
(the spec's `data` field), the current page number, the last page number
and the explicit is-last-page boolean field. -/
structure Page where
  data : List Nat
  page : Nat
  lastPageNumber : Nat
  isLastPage : Bool
deriving DecidableEq, Repr

/-- A decoded JSON value as far as the fetch engine inspects it. -/
inductive Resp where
  /-- Python `None`: JSON `null`, and the executor's decode-failure return. -/
  | null : Resp
  /-- An empty mapping `\x7b\x7d` (falsy, no `error` key, not paginated). -/
  | emptyDict : Resp
  /-- A mapping containing an `error` key; the payload is its message. -/
  | err (payload : String) : Resp
  /-- A flat list of records (unpaginated endpoints). -/
  | flat (xs : List Nat) : Resp
  /-- A mapping in the standard paginated shape. -/
  | paged (p : Page) : Resp
deriving DecidableEq, Repr

/-- Python truthiness of a decoded response: `None`, the empty mapping
and the empty list are falsy; every other modelled value is truthy. -/
def Resp.falsy : Resp → Bool
  | .null => true
  | .emptyDict => true
  | .flat xs => xs.isEmpty
  | .err _ => false
  | .paged _ => false

/-- Modelled from the spec: the Page Descriptor that
`utils.sniff_response_format` derives for the standard paginated shape —
the end condition reads the explicit is-last-page boolean field. -/
def end_condition (p : Page) : Bool := p.isLastPage

/-- The query mapping: only the two keys the engine itself reads or
writes are modelled; `Option.none` is an absent key. -/
structure Query where
  page : Option Nat := Option.none
  itemsPerPage : Option Nat := Option.none
deriving DecidableEq, Repr

/-- Outcome of a paginator run (`__repeat_get_request_for_all_records` /
`__repeat_get_request_for_all_unpaginated_records`). -/
inductive FetchResult where
  /-- The accumulated record list (`entries`) is returned. -/
  | records (xs : List Nat) : FetchResult
  /-- A mapping with an `error` key is returned unchanged. -/
  | errPayload (e : String) : FetchResult
  /-- Python `None` is returned. -/
  | pyNone : FetchResult
  /-- Uncaught exception, or fuel ran out (the unbounded source loop). -/
  | crash : FetchResult
deriving DecidableEq, Repr

/-! ## Request executor: `__plenty_api_request` (api.py lines 287-343) -/

/-- One raw HTTP response: its status code, and its body as decoded
JSON — `Option.none` when the body is empty or fails to decode. -/
structure RawResponse where
  status : Nat
  body : Option Resp
deriving DecidableEq, Repr

/-- The `while True` retry loop of `__plenty_api_request`: the request
parameters (method, endpoint, query, body) are fixed before the loop and
never modified inside it, so the network is modelled as the sequence
`attempts i` of raw responses to re-sending that same request.  On
status 429 the source sleeps 3 seconds and retries; the slept intervals
are returned alongside the chosen raw response. -/
def request_attempt_loop (attempts : Nat → RawResponse) :
    Nat → Nat → Option RawResponse × List Nat
  | 0, _ => (Option.none, [])
  | fuel+1, i =>
    let r := attempts i
    if r.status ≠ 429 then (some r, [])
    else
      let rec' := request_attempt_loop attempts fuel (i+1)
      (rec'.1, 3 :: rec'.2)

/-- `__plenty_api_request`: run the 429 retry loop, then decode the
body; a body that is empty or not JSON yields Python `None`
(`Resp.null`), any decoded body is returned unchanged (a mapping with an
`error` key is only logged).  The outer `Option` is `Option.none` only
when the fuel ran out while every attempt kept returning 429. -/
def plenty_api_request (attempts : Nat → RawResponse) (fuel : Nat) :
    Option Resp × List Nat :=
  match request_attempt_loop attempts fuel 0 with
  | (Option.none, s) => (Option.none, s)
  | (some raw, s) => (some (raw.body.getD Resp.null), s)

/-! ## Standard paginator: `__repeat_get_request_for_all_records`
(api.py lines 347-406).  `server q` is the decoded value that
`__plenty_api_request` returns for query `q` (Python `None` = `.null`).
The progress-bar statements only log and are omitted. -/

/-- The `while not page_info['end_condition'](response)` loop.  `p` is
the current (paginated) response, `entries` the accumulator.  Each
iteration sets `query.page = response.page + 1`, re-requests, returns
`None` on a falsy response, returns an error mapping unchanged, and
otherwise appends `response[data]` — which raises (crash) when the
response is a truthy non-mapping or lacks the data key. -/
def repeat_loop (server : Query → Resp) :
    Nat → Query → List Nat → Page → FetchResult × List Query
  | 0, _, _, _ => (.crash, [])
  | fuel+1, q, entries, p =>
    if end_condition p then (.records entries, [])
    else
      let q' := { q with page := some (p.page + 1) }
      let r := server q'
      if r.falsy then (.pyNone, [q'])
      else
        match r with
        | .err e => (.errPayload e, [q'])
        | .paged p' =>
          let res := repeat_loop server fuel q' (entries ++ p'.data) p'
          (res.1, q' :: res.2)
        | _ => (.crash, [q'])

/-- `__repeat_get_request_for_all_records`: first request with the
caller's query; `None` on a falsy response; an error mapping or a flat
list is returned as-is; otherwise sniff the page descriptor, take the
first batch of records and run the page loop. -/
def repeat_get_request_for_all_records (server : Query → Resp) (fuel : Nat)
    (q : Query) : FetchResult × List Query :=
  let r := server q
  if r.falsy then (.pyNone, [q])
  else
    match r with
    | .err e => (.errPayload e, [q])
    | .flat xs => (.records xs, [q])
    | .paged p =>
      let res := repeat_loop server fuel q p.data p
      (res.1, q :: res.2)
    | _ => (.crash, [q])

/-! ## Probing paginator:
`__repeat_get_request_for_all_unpaginated_records` (api.py lines
477-540). -/

/-- The `while True` loop of the probing paginator: increment
`query.page`, request, return `None` on a falsy response, an error
mapping unchanged, append the page's records, and break when the page
held strictly fewer records than `query['itemsPerPage']`.  Reading a
missing `page`/`itemsPerPage` key would raise (crash); the entry
function always sets both. -/
def probe_loop (server : Query → Resp) :
    Nat → Query → List Nat → FetchResult × List Query
  | 0, _, _ => (.crash, [])
  | fuel+1, q, entries =>
    match q.page, q.itemsPerPage with
    | some pg, some ipp =>
      let q' := { q with page := some (pg + 1) }
      let r := server q'
      if r.falsy then (.pyNone, [q'])
      else
        match r with
        | .err e => (.errPayload e, [q'])
        | .paged p' =>
          if p'.data.length < ipp then (.records (entries ++ p'.data), [q'])
          else
            let res := probe_loop server fuel q' (entries ++ p'.data)
            (res.1, q' :: res.2)
        | _ => (.crash, [q'])
    | _, _ => (.crash, [])

/-- The query-defaulting prologue of
`__repeat_get_request_for_all_unpaginated_records` (api.py lines
499-503): set `itemsPerPage` to 100 and `page` to 1 when the caller did
not set them. -/
def probe_init (q0 : Query) : Query :=
  let q1 := if q0.itemsPerPage = Option.none
            then { q0 with itemsPerPage := some 100 } else q0
  if q1.page = Option.none then { q1 with page := some 1 } else q1

/-- `__repeat_get_request_for_all_unpaginated_records`: default
`itemsPerPage` to 100 and `page` to 1 when the caller did not set them,
issue the first request, handle falsy / error / flat-list responses as
the standard paginator does, then probe successive pages. -/
def repeat_get_request_for_all_unpaginated_records (server : Query → Resp)
    (fuel : Nat) (q0 : Query) : FetchResult × List Query :=
  let q2 := probe_init q0
  let r := server q2
  if r.falsy then (.pyNone, [q2])
  else
    match r with
    | .err e => (.errPayload e, [q2])
    | .flat xs => (.records xs, [q2])
    | .paged p =>
      let res := probe_loop server fuel q2 p.data
      (res.1, q2 :: res.2)
    | _ => (.crash, [q2])

/-! ## Authenticator: `__authenticate` (api.py lines 160-285).

Credential acquisition (keyring store, prompts, GnuPG, Azure) is an
external collaborator excluded by the spec; the acquired credentials
never influence the control flow modelled here, which is driven by the
login endpoint's JSON responses (`server k` = decoded body of the k-th
POST to `/rest/login`).  The HTTP 403 branch only logs. -/

/-- The decoded body of a `/rest/login` response, as far as
`__authenticate` inspects it. -/
inductive LoginJson where
  /-- A body carrying the expected token field. -/
  | token (tok : String) : LoginJson
  /-- A body with an `error` key holding the given string. -/
  | errorVal (e : String) : LoginJson
  /-- A body with neither the token field nor an `error` key. -/
  | other : LoginJson
deriving DecidableEq, Repr

/-- Modelled from the spec: `utils.build_login_token` (in the absent
`plenty_api/utils.py`) extracts the bearer token from the JSON body and
raises `KeyError` — here `Option.none` — when the token field is
absent. -/
def build_login_token : LoginJson → Option String
  | .token t => some t
  | _ => Option.none

/-- Outcome of `__authenticate`: `success tok` stores `tok` in
`self.creds['Authorization']` (attached to every later request) and
returns True; `failure` returns False; `raised` models an
`InvalidLoginAttempt` exception escaping the method. -/
inductive AuthOutcome where
  | success (authorization : String) : AuthOutcome
  | failure : AuthOutcome
  | raised (reason : String) : AuthOutcome
deriving DecidableEq, Repr

/-- The Python value passed as `login_data`: `None`, a mapping, or a
string (the type hint says `dict`, but Python does not enforce it). -/
inductive PyVal where
  | pyNone : PyVal
  | dict : PyVal
  | str (s : String) : PyVal
deriving DecidableEq, Repr

/-- The five accepted login method names (api.py lines 186-187). -/
def valid_login_methods : List String :=
  ["keyring", "direct", "gpg_encrypted", "plain_text", "azure_credential"]

/-- Helper for the tail of `__authenticate`: `if not token: return
False` then store the token and return True. -/
def finish_login (tok : String) : AuthOutcome :=
  if tok = "" then .failure else .success tok

/-- `__authenticate`, returning the outcome together with the number of
POSTs made to `/rest/login`.  Faithful to the source: the
re-prompt-and-retry branch (api.py lines 256-267) fires only when the
first body's `error` is `invalid_credentials` AND `login_data ==
'keyring'` — the comparison is against `login_data`, not
`login_method`.  A `KeyError` from the retry's `build_login_token` is
caught at line 272, logging succeeds, and control falls through to
`if not token` with `token` still `''`. -/
def authenticate (login_method : String) (login_data : PyVal)
    (server : Nat → LoginJson) : AuthOutcome × Nat :=
  if valid_login_methods.contains login_method = false then
    (.raised ("invalid login method " ++ login_method), 0)
  else
    let r0 := server 0
    match build_login_token r0 with
    | some tok => (finish_login tok, 1)
    | Option.none =>
      match r0 with
      | .errorVal e =>
        if e = "invalid_credentials" ∧ login_data = .str "keyring" then
          let r1 := server 1
          match build_login_token r1 with
          | some tok => (finish_login tok, 2)
          | Option.none => (.failure, 2)
        else (.failure, 1)
      | _ => (.failure, 1)

/-! ## Pre-call validation (api.py lines 1416-1445 and 1763-1896). -/

/-- Modelled from the spec: `utils.get_language` (absent
`plenty_api/utils.py`) maps a language code to itself when it is in
`VALID_LANGUAGES` and to `INVALID_LANGUAGE` otherwise; the valid set is
a parameter here because `plenty_api/constants.py` is also absent. -/
def get_language (validLangs : List String) (lang : String) : String :=
  if validLangs.contains lang then lang else "INVALID_LANGUAGE"

/-- Result of `plenty_api_create_attribute_name`: an error mapping, a
one-element list holding an error mapping, or the POST that would be
issued to the network. -/
inductive CreateNameResult where
  /-- `\x7b'error': code\x7d` returned before any network request. -/
  | errMap (code : String) : CreateNameResult
  /-- `[\x7b'error': code\x7d]` — a list, returned before any network request. -/
  | errList (code : String) : CreateNameResult
  /-- The request `__plenty_api_request(method='post', ...)` is issued. -/
  | network (path lang nm : String) : CreateNameResult
deriving DecidableEq, Repr

/-- `plenty_api_create_attribute_name` (api.py lines 1416-1445): falsy
id/lang/name yield `[\x7b'error': 'missing_parameter'\x7d]`; an invalid
language yields `\x7b'error': 'invalid_language'\x7d`; otherwise the POST is
issued. -/
def plenty_api_create_attribute_name (validLangs : List String)
    (attribute_id : Nat) (lang nm : String) : CreateNameResult :=
  if attribute_id = 0 ∨ lang = "" ∨ nm = "" then .errList "missing_parameter"
  else
    let path := "/" ++ toString attribute_id ++ "/names"
    if get_language validLangs lang = "INVALID_LANGUAGE" then
      .errMap "invalid_language"
    else .network path lang nm

/-- Result of a stock-booking call: an error mapping returned before
any network request, or the PUT that would be issued (carrying the
quantity put in the request body). -/
inductive BookResult where
  | errMap (code : String) : BookResult
  | network (quantity : Int) : BookResult
deriving DecidableEq, Repr

/-- `plenty_api_book_incoming_items` (api.py lines 1763-1829): the REST
API only accepts positive quantities for incoming bookings, so
`quantity <= 0` is rejected with `\x7b'error': 'invalid_quantity'\x7d` before
any request. -/
def plenty_api_book_incoming_items (quantity : Int) : BookResult :=
  if quantity ≤ 0 then .errMap "invalid_quantity" else .network quantity

/-- `plenty_api_book_outgoing_items` (api.py lines 1831-1896): the REST
API only accepts negative quantities for outgoing bookings, so
`quantity >= 0` is rejected with `\x7b'error': 'invalid_quantity'\x7d` before
any request. -/
def plenty_api_book_outgoing_items (quantity : Int) : BookResult :=
  if quantity ≥ 0 then .errMap "invalid_quantity" else .network quantity

/-! ## Auxiliary definitions for the statements of the claims -/

/-- The value the page loops hand back when the response that ended the
loop is not a well-formed page: `None` for a falsy response, the error
mapping unchanged, and an exception (crash) for a truthy non-paginated
value whose data key cannot be read. -/
def stop_result (r : Resp) : FetchResult :=
  if r.falsy then .pyNone
  else
    match r with
    | .err e => .errPayload e
    | _ => .crash

/-! ## Concrete endpoints used by the witnesses -/

/-- A fixed request whose first attempt is throttled and whose second
attempt succeeds with the flat list `[7]`. -/
def req429then200 : Nat → RawResponse := fun i =>
  if i = 0 then { status := 429, body := some (Resp.err "throttled") }
  else { status := 200, body := some (Resp.flat [7]) }

/-- An attempt sequence whose body decodes successfully to JSON `null`. -/
def jsonNullAttempts : Nat → RawResponse :=
  fun _ => { status := 200, body := some Resp.null }

/-- A single successful attempt carrying an error mapping. -/
def errBodyAttempts : Nat → RawResponse :=
  fun _ => { status := 200, body := some (Resp.err "boom") }

/-- A two-page standard endpoint: page 1 holds `[1, 2]`, page 2 holds
`[3]` and is flagged as the last page. -/
def stdServer2 : Query → Resp := fun q =>
  match q.page with
  | some 2 => .paged { data := [3], page := 2, lastPageNumber := 2,
                       isLastPage := true }
  | _ => .paged { data := [1, 2], page := 1, lastPageNumber := 2,
                  isLastPage := false }

/-- The pages of `stdServer2`. -/
def stdPg2 : Nat → Page := fun k =>
  if k = 2 then { data := [3], page := 2, lastPageNumber := 2,
                  isLastPage := true }
  else { data := [1, 2], page := 1, lastPageNumber := 2,
         isLastPage := false }

/-- A standard endpoint whose second page is an error mapping. -/
def stdServerErr : Query → Resp := fun q =>
  match q.page with
  | some 2 => .err "boom"
  | _ => .paged { data := [1, 2], page := 1, lastPageNumber := 5,
                  isLastPage := false }

/-- A standard endpoint whose second page is Python `None`. -/
def stdServerNullAt2 : Query → Resp := fun q =>
  match q.page with
  | some 2 => .null
  | _ => .paged { data := [1, 2], page := 1, lastPageNumber := 9,
                  isLastPage := false }

/-- A full probe page of 100 records (the probe ignores page metadata). -/
def fullPage100 : Page :=
  { data := List.replicate 100 0, page := 0, lastPageNumber := 0,
    isLastPage := false }

/-- A short probe page of 43 records. -/
def shortPage43 : Page :=
  { data := List.replicate 43 0, page := 0, lastPageNumber := 0,
    isLastPage := false }

/-- A probe page with no records at all (still a truthy mapping). -/
def emptyPage : Page :=
  { data := [], page := 0, lastPageNumber := 0, isLastPage := false }

/-- An unpaginated endpoint with page sizes `[100, 100, 43]`. -/
def probeServer3 : Query → Resp := fun q =>
  match q.page with
  | some 1 => .paged fullPage100
  | some 2 => .paged fullPage100
  | some 3 => .paged shortPage43
  | _ => .null

/-- The pages of `probeServer3`. -/
def probePg3 : Nat → Page := fun k =>
  if k = 3 then shortPage43 else fullPage100

/-- An unpaginated endpoint with page sizes `[100, 0]`. -/
def probeServer2 : Query → Resp := fun q =>
  match q.page with
  | some 1 => .paged fullPage100
  | some 2 => .paged emptyPage
  | _ => .null

/-- The pages of `probeServer2`. -/
def probePg2 : Nat → Page := fun k =>
  if k = 2 then emptyPage else fullPage100

/-- An unpaginated endpoint whose second page is an empty mapping. -/
def probeServerEmptyDictAt2 : Query → Resp := fun q =>
  match q.page with
  | some 1 => .paged fullPage100
  | _ => .emptyDict

/-- An unpaginated endpoint whose FIRST page is already short (43
records, fewer than the forced `itemsPerPage = 100`); page 2 is an
empty page. -/
def probeServerShortFirst : Query → Resp := fun q =>
  match q.page with
  | some 1 => .paged shortPage43
  | _ => .paged emptyPage

/-! ## Lemmas about the request executor -/

/-- If every attempt from `i` up to (excluding) `k` is throttled (429)
and attempt `k` is not, the retry loop picks attempt `k` and sleeps 3
seconds once per throttled attempt. -/
theorem request_attempt_loop_first (attempts : Nat → RawResponse) :
    ∀ fuel i k, i ≤ k → (∀ j, i ≤ j → j < k → (attempts j).status = 429) →
      (attempts k).status ≠ 429 → k - i < fuel →
      request_attempt_loop attempts fuel i
        = (some (attempts k), List.replicate (k - i) 3) := by
  intro fuel
  induction fuel with
  | zero => intro i k _ _ _ hfuel; omega
  | succ fuel ih =>
    intro i k hik hbefore hk hfuel
    by_cases hie : i = k
    · subst hie
      simp [request_attempt_loop, hk]
    · have hilt : i < k := lt_of_le_of_ne hik hie
      have h429 : (attempts i).status = 429 := hbefore i le_rfl hilt
      have hrec := ih (i+1) k (by omega)
        (fun j h1 h2 => hbefore j (by omega) h2) hk (by omega)
      simp only [request_attempt_loop, h429, ne_eq, not_true_eq_false,
        if_false, hrec]
      have : k - i = (k - (i+1)) + 1 := by omega
      rw [this, List.replicate_succ]

/-- The retry loop never selects a 429 response. -/
theorem request_attempt_loop_not429 (attempts : Nat → RawResponse) :
    ∀ fuel i raw s, request_attempt_loop attempts fuel i = (some raw, s) →
      raw.status ≠ 429 := by
  intro fuel
  induction fuel with
  | zero => intro i raw s h; simp [request_attempt_loop] at h
  | succ fuel ih =>
    intro i raw s h
    simp only [request_attempt_loop] at h
    by_cases hc : (attempts i).status ≠ 429
    · rw [if_pos hc] at h
      have h1 : some (attempts i) = some raw := congrArg Prod.fst h
      have h2 : attempts i = raw := Option.some.inj h1
      subst h2
      exact hc
    · rw [if_neg hc] at h
      have h1 : (request_attempt_loop attempts fuel (i+1)).1 = some raw :=
        congrArg Prod.fst h
      exact ih (i+1) raw (request_attempt_loop attempts fuel (i+1)).2
        (by rw [← h1])

/-- `__plenty_api_request` returns the decoded body of the first
non-throttled attempt, with one 3-second sleep per 429 seen before. -/
theorem plenty_api_request_first (attempts : Nat → RawResponse)
    (fuel k : Nat) (hbefore : ∀ j, j < k → (attempts j).status = 429)
    (hk : (attempts k).status ≠ 429) (hfuel : k < fuel) :
    plenty_api_request attempts fuel
      = (some ((attempts k).body.getD Resp.null), List.replicate k 3) := by
  unfold plenty_api_request
  rw [request_attempt_loop_first attempts fuel 0 k (Nat.zero_le k)
    (fun j _ h2 => hbefore j h2) hk (by omega)]
  simp

/-- C5: for a response sequence that is a 429 followed by a non-429,
the request executor retries the same request after a fixed 3-second
backoff (the request parameters are fixed outside the retry loop; the
attempt index is the only thing that changes) and returns the body of
the first non-429 response — the same value an immediate success (the
shifted attempt sequence) would produce — and the executor never
returns a result derived from a 429 response. -/
theorem request_executor_retries_after_429
    (attempts : Nat → RawResponse) (fuel : Nat)
    (h0 : (attempts 0).status = 429) (h1 : (attempts 1).status ≠ 429)
    (hfuel : 2 ≤ fuel) :
    plenty_api_request attempts fuel
      = (some ((attempts 1).body.getD Resp.null), [3]) ∧
    (plenty_api_request attempts fuel).1
      = (plenty_api_request (fun i => attempts (i+1)) fuel).1 ∧
    ∀ (att : Nat → RawResponse) (f : Nat) raw s,
      request_attempt_loop att f 0 = (some raw, s) → raw.status ≠ 429 := by
  have hfirst := plenty_api_request_first attempts fuel 1
    (by intro j hj; interval_cases j; exact h0) h1 (by omega)
  refine ⟨by simpa using hfirst, ?_, ?_⟩
  · have hshift := plenty_api_request_first (fun i => attempts (i+1)) fuel 0
      (fun j hj => absurd hj (Nat.not_lt_zero j)) h1 (by omega)
    rw [hfirst, hshift]
  · intro att f raw s h
    exact request_attempt_loop_not429 att f 0 raw s h

/-- Witness for C5 at a concrete 429-then-200 sequence. -/
theorem request_executor_retries_after_429_witness :
    plenty_api_request req429then200 2 = (some (Resp.flat [7]), [3]) := by
  have h := (request_executor_retries_after_429 req429then200 2 rfl
    (by decide) (by omega)).1
  simpa [req429then200] using h

/-- C6 counterexample: a body that decodes successfully to the JSON
literal `null` also makes the executor return null (Python cannot tell
the decoded `None` apart from its decode-failure sentinel), so "returns
null exactly when the body is empty or fails to decode" is false: here
the body decoded (it is not `Option.none`), yet the result is null. -/
theorem request_executor_null_on_json_null_body :
    (jsonNullAttempts 0).body ≠ Option.none ∧
    plenty_api_request jsonNullAttempts 1 = (some Resp.null, []) := by
  decide

/-- C6 (amended): the executor returns null exactly when the body is
empty, fails to decode as JSON, or decodes to the JSON literal `null`;
otherwise it returns the decoded body unchanged — in particular a
mapping with an `error` key flows through unmodified (it is only
logged). -/
theorem request_executor_decode_behaviour
    (attempts : Nat → RawResponse) (fuel k : Nat)
    (hbefore : ∀ j, j < k → (attempts j).status = 429)
    (hk : (attempts k).status ≠ 429) (hfuel : k < fuel) :
    plenty_api_request attempts fuel
      = (some ((attempts k).body.getD Resp.null), List.replicate k 3) ∧
    ((plenty_api_request attempts fuel).1 = some Resp.null ↔
      ((attempts k).body = Option.none ∨ (attempts k).body = some Resp.null)) ∧
    (∀ e, (attempts k).body = some (Resp.err e) →
      (plenty_api_request attempts fuel).1 = some (Resp.err e)) := by
  have h := plenty_api_request_first attempts fuel k hbefore hk hfuel
  refine ⟨h, ?_, ?_⟩
  · rw [h]
    cases hb : (attempts k).body with
    | none => simp
    | some v => cases v <;> simp
  · intro e he
    rw [h, he]
    rfl

/-- Witness for the amended C6 at a concrete error-mapping body. -/
theorem request_executor_decode_behaviour_witness :
    plenty_api_request errBodyAttempts 1 = (some (Resp.err "boom"), []) := by
  have h := (request_executor_decode_behaviour errBodyAttempts 1 0
    (fun j hj => absurd hj (Nat.not_lt_zero j)) (by decide) (by omega)).1
  simpa [errBodyAttempts] using h

/-! ## Lemmas about the standard paginator -/

/-- Updating the `page` key of two queries that agree on `itemsPerPage`
gives the same query. -/
theorem query_update_page (q q0 : Query)
    (h : q.itemsPerPage = q0.itemsPerPage) (v : Option Nat) :
    ({ q with page := v } : Query) = { q0 with page := v } := by
  cases q; cases q0; simpa using h

/-- Traversal of the standard page loop over a well-formed paginated
endpoint: starting from page `k` of `L` with accumulator `acc`, the
loop requests pages `k+1 … L` (advancing the `page` key to the current
response's page number plus one each iteration) and returns `acc`
followed by those pages' records. -/
theorem repeat_loop_run (server : Query → Resp) (pg : Nat → Page)
    (L : Nat) (q0 : Query)
    (hserv : ∀ k, 2 ≤ k → k ≤ L →
      server { q0 with page := some k } = .paged (pg k))
    (hpage : ∀ k, 1 ≤ k → k ≤ L → (pg k).page = k)
    (hlast : ∀ k, 1 ≤ k → k ≤ L → (pg k).isLastPage = decide (k = L)) :
    ∀ fuel k acc (q : Query), 1 ≤ k → k ≤ L → L - k < fuel →
      q.itemsPerPage = q0.itemsPerPage →
      repeat_loop server fuel q acc (pg k) =
        (.records (acc ++ (List.range' (k+1) (L - k)).flatMap fun j => (pg j).data),
         (List.range' (k+1) (L - k)).map fun j => { q0 with page := some j }) := by
  intro fuel
  induction fuel with
  | zero => intro k acc q _ _ hfuel _; omega
  | succ fuel ih =>
    intro k acc q hk1 hkL hfuel hq
    have hq' : ∀ v : Option Nat,
        ({ q with page := v } : Query) = { q0 with page := v } :=
      query_update_page q q0 hq
    rcases eq_or_lt_of_le hkL with hkeq | hklt
    · have hl : end_condition (pg k) = true := by
        rw [end_condition, hlast k hk1 hkL, hkeq]; simp
      have h0 : L - k = 0 := by omega
      simp [repeat_loop, hl, h0]
    · have hl : end_condition (pg k) = false := by
        rw [end_condition, hlast k hk1 hkL]
        simp only [decide_eq_false_iff_not]
        omega
      have hrec := ih (k+1) (acc ++ (pg (k+1)).data)
        { q0 with page := some (k+1) } (by omega) (by omega) (by omega) rfl
      simp only [repeat_loop, hl, Bool.false_eq_true, if_false,
        hpage k hk1 hkL, hq', hserv (k+1) (by omega) (by omega),
        Resp.falsy, hrec]
      have hLk : L - k = (L - (k+1)) + 1 := by omega
      rw [hLk, List.range'_succ]
      simp [List.append_assoc]

/-- C1: for every standard paginated response family — page `k` carries
its records, its page number `k`, the last page number `L`, and an
is-last-page flag that is set exactly on page `L` — the standard
paginator returns exactly the concatenation of the `data` record lists
of pages 1 through `L` in page order (record order preserved), issuing
the caller's query first and then advancing the query's `page` key to
`current_page + 1` for each following request until the end condition
holds. -/
theorem std_paginate_concatenates_all_pages (server : Query → Resp)
    (pg : Nat → Page) (L : Nat) (q0 : Query) (fuel : Nat)
    (hL : 1 ≤ L)
    (hfirst : server q0 = .paged (pg 1))
    (hserv : ∀ k, 2 ≤ k → k ≤ L →
      server { q0 with page := some k } = .paged (pg k))
    (hpage : ∀ k, 1 ≤ k → k ≤ L → (pg k).page = k)
    (hlast : ∀ k, 1 ≤ k → k ≤ L → (pg k).isLastPage = decide (k = L))
    (hfuel : L ≤ fuel) :
    repeat_get_request_for_all_records server fuel q0 =
      (.records ((List.range' 1 L).flatMap fun j => (pg j).data),
       q0 :: ((List.range' 2 (L - 1)).map fun j => { q0 with page := some j })) := by
  have hrun := repeat_loop_run server pg L q0 hserv hpage hlast fuel 1
    (pg 1).data q0 le_rfl hL (by omega) rfl
  simp only [repeat_get_request_for_all_records, hfirst, Resp.falsy,
    Bool.false_eq_true, if_false, hrun]
  have hL1 : L = (L - 1) + 1 := by omega
  rw [hL1, List.range'_succ]
  simp

/-- Witness for C1 on the concrete two-page endpoint `stdServer2`. -/
theorem std_paginate_concatenates_all_pages_witness :
    repeat_get_request_for_all_records stdServer2 2 {} =
      (.records [1, 2, 3],
       [{}, { page := some 2 }]) := by
  have h := std_paginate_concatenates_all_pages stdServer2 stdPg2 2 {} 2
    (by omega) rfl
    (by intro k h2 hL; interval_cases k; rfl)
    (by intro k h1 hL; interval_cases k <;> rfl)
    (by intro k h1 hL; interval_cases k <;> rfl)
    (by omega)
  exact h.trans (by decide)

/-- Traversal of the standard page loop when pages `1 … m-1` are
well-formed non-final pages and the request for page `m` comes back as
a value `r` that is not a page: the loop hands back `stop_result r`
(never the partial accumulator). -/
theorem repeat_loop_stop (server : Query → Resp) (pg : Nat → Page)
    (m : Nat) (q0 : Query) (r : Resp)
    (hserv : ∀ k, 2 ≤ k → k < m →
      server { q0 with page := some k } = .paged (pg k))
    (hpage : ∀ k, 1 ≤ k → k < m → (pg k).page = k)
    (hnotlast : ∀ k, 1 ≤ k → k < m → (pg k).isLastPage = false)
    (hr : server { q0 with page := some m } = r)
    (hnp : ∀ p', r ≠ .paged p') :
    ∀ fuel k acc (q : Query), 1 ≤ k → k < m → m - k ≤ fuel →
      q.itemsPerPage = q0.itemsPerPage →
      repeat_loop server fuel q acc (pg k) =
        (stop_result r,
         (List.range' (k+1) (m - k)).map fun j => { q0 with page := some j }) := by
  intro fuel
  induction fuel with
  | zero => intro k acc q _ hkm hfuel _; omega
  | succ fuel ih =>
    intro k acc q hk1 hkm hfuel hq
    have hq' : ∀ v : Option Nat,
        ({ q with page := v } : Query) = { q0 with page := v } :=
      query_update_page q q0 hq
    have hl : end_condition (pg k) = false := by
      rw [end_condition, hnotlast k hk1 hkm]
    by_cases hnext : k + 1 = m
    · have hm : m - k = 1 := by omega
      simp only [repeat_loop, hl, Bool.false_eq_true, if_false,
        hpage k hk1 hkm, hq', hnext, hr, hm, List.range'_one, List.map_cons,
        List.map_nil]
      cases r with
      | err e => simp [stop_result, Resp.falsy]
      | null => simp [stop_result, Resp.falsy]
      | emptyDict => simp [stop_result, Resp.falsy]
      | flat xs => cases xs <;> simp [stop_result, Resp.falsy]
      | paged p' => exact absurd rfl (hnp p')
    · have hrec := ih (k+1) (acc ++ (pg (k+1)).data)
        { q0 with page := some (k+1) } (by omega) (by omega) (by omega) rfl
      simp only [repeat_loop, hl, Bool.false_eq_true, if_false,
        hpage k hk1 hkm, hq', hserv (k+1) (by omega) (by omega),
        Resp.falsy, hrec]
      have hmk : m - k = (m - (k+1)) + 1 := by omega
      rw [hmk, List.range'_succ]
      simp

/-- C2: when pages 1 through `m-1` of a standard pagination run are
well-formed non-final pages and the request for page `m` yields an error
mapping or Python `None`, the standard paginator returns that error
mapping (respectively `None`) itself, and never a `records` value — the
partial sequence accumulated from the earlier pages is discarded. -/
theorem std_paginate_propagates_intermediate_failure
    (server : Query → Resp) (pg : Nat → Page) (m : Nat) (q0 : Query)
    (fuel : Nat) (r : Resp)
    (hm : 2 ≤ m)
    (hfirst : server q0 = .paged (pg 1))
    (hserv : ∀ k, 2 ≤ k → k < m →
      server { q0 with page := some k } = .paged (pg k))
    (hpage : ∀ k, 1 ≤ k → k < m → (pg k).page = k)
    (hnotlast : ∀ k, 1 ≤ k → k < m → (pg k).isLastPage = false)
    (hr : server { q0 with page := some m } = r)
    (hcase : (∃ e, r = .err e) ∨ r = .null)
    (hfuel : m - 1 ≤ fuel) :
    (repeat_get_request_for_all_records server fuel q0).1 = stop_result r ∧
    (∀ e, r = .err e →
      (repeat_get_request_for_all_records server fuel q0).1 = .errPayload e) ∧
    (r = .null →
      (repeat_get_request_for_all_records server fuel q0).1 = .pyNone) ∧
    (∀ xs, (repeat_get_request_for_all_records server fuel q0).1 ≠
      .records xs) := by
  have hnp : ∀ p', r ≠ .paged p' := by
    rcases hcase with ⟨e, he⟩ | he <;> subst he <;> intro p' h <;> cases h
  have hstop := repeat_loop_stop server pg m q0 r hserv hpage hnotlast hr hnp
    fuel 1 (pg 1).data q0 le_rfl (by omega) (by omega) rfl
  have hmain : (repeat_get_request_for_all_records server fuel q0).1
      = stop_result r := by
    simp [repeat_get_request_for_all_records, hfirst, Resp.falsy, hstop]
  refine ⟨hmain, ?_, ?_, ?_⟩
  · intro e he
    rw [hmain, he]
    simp [stop_result, Resp.falsy]
  · intro he
    rw [hmain, he]
    simp [stop_result, Resp.falsy]
  · intro xs h
    rw [hmain] at h
    rcases hcase with ⟨e, he⟩ | he <;> subst he <;>
      simp [stop_result, Resp.falsy] at h

/-- Witness for C2: `stdServerErr` fails with an error mapping on page
2; the paginator surfaces `boom` and not the records of page 1. -/
theorem std_paginate_propagates_intermediate_failure_witness :
    (repeat_get_request_for_all_records stdServerErr 1 {}).1 =
      .errPayload "boom" := by
  have h := std_paginate_propagates_intermediate_failure stdServerErr
    (fun _ => { data := [1, 2], page := 1, lastPageNumber := 5,
                isLastPage := false })
    2 {} 1 (.err "boom") (by omega) rfl
    (by intro k h2 hk; omega)
    (by intro k h1 hk; interval_cases k; rfl)
    (by intro k h1 hk; interval_cases k; rfl)
    rfl (Or.inl ⟨"boom", rfl⟩) (by omega)
  exact h.2.1 "boom" rfl

/-- C7 counterexample: an empty flat list as the first response is
falsy in Python, so the `if not response` guard fires first and the
standard paginator returns `None` — not the empty list itself as the
claim states. -/
theorem std_paginate_empty_list_first_response :
    repeat_get_request_for_all_records (fun _ => Resp.flat []) 1 {} =
      (.pyNone, [{}]) ∧
    (FetchResult.pyNone ≠ FetchResult.records []) := by
  decide

/-- C7 (amended): a first response that is an error mapping or a
non-empty flat list is returned as-is by the standard paginator, with
no shape detection and no further page request (exactly one query is
issued); a first response that is the empty flat list is falsy and
yields `None` instead. -/
theorem std_paginate_first_response_passthrough
    (server : Query → Resp) (q : Query) (fuel : Nat) :
    (∀ e, server q = .err e →
      repeat_get_request_for_all_records server fuel q =
        (.errPayload e, [q])) ∧
    (∀ xs, xs ≠ [] → server q = .flat xs →
      repeat_get_request_for_all_records server fuel q =
        (.records xs, [q])) ∧
    (server q = .flat [] →
      repeat_get_request_for_all_records server fuel q = (.pyNone, [q])) := by
  refine ⟨?_, ?_, ?_⟩
  · intro e h
    simp [repeat_get_request_for_all_records, h, Resp.falsy]
  · intro xs hxs h
    cases xs with
    | nil => exact absurd rfl hxs
    | cons a l => simp [repeat_get_request_for_all_records, h, Resp.falsy]
  · intro h
    simp [repeat_get_request_for_all_records, h, Resp.falsy]

/-- Witness for the amended C7 on a non-empty flat-list response. -/
theorem std_paginate_first_response_passthrough_witness :
    repeat_get_request_for_all_records (fun _ => Resp.flat [9]) 1 {} =
      (.records [9], [{}]) :=
  (std_paginate_first_response_passthrough
    (fun _ => Resp.flat [9]) {} 1).2.1 [9] (by decide) rfl

/-! ## Lemmas about the probing paginator -/

/-- Traversal of the probe loop over pages that are full up to page
`n-1` and short at page `n`: starting after page `k`, the loop requests
pages `k+1 … n` (each with `itemsPerPage = ipp` and the incremented
`page` key) and stops at the first short page, returning all records
seen. -/
theorem probe_loop_run (server : Query → Resp) (pg : Nat → Page)
    (n ipp : Nat)
    (hserv : ∀ k, 2 ≤ k → k ≤ n →
      server { page := some k, itemsPerPage := some ipp } = .paged (pg k))
    (hfull : ∀ k, 2 ≤ k → k < n → ¬((pg k).data.length < ipp))
    (hshort : (pg n).data.length < ipp) :
    ∀ fuel k acc, 1 ≤ k → k < n → n - k ≤ fuel →
      probe_loop server fuel { page := some k, itemsPerPage := some ipp } acc =
        (.records (acc ++ (List.range' (k+1) (n - k)).flatMap
           fun j => (pg j).data),
         (List.range' (k+1) (n - k)).map
           fun j => ({ page := some j, itemsPerPage := some ipp } : Query)) := by
  intro fuel
  induction fuel with
  | zero => intro k acc _ hkn hfuel; omega
  | succ fuel ih =>
    intro k acc hk1 hkn hfuel
    by_cases hnext : k + 1 = n
    · have hn1 : n - k = 1 := by omega
      simp only [probe_loop, hnext, hserv n (by omega) le_rfl, Resp.falsy,
        Bool.false_eq_true, if_false, hshort, if_true, hn1, List.range'_one,
        List.map_cons, List.map_nil, List.flatMap_cons, List.flatMap_nil,
        List.append_nil]
    · have hrec := ih (k+1) (acc ++ (pg (k+1)).data) (by omega) (by omega)
        (by omega)
      simp only [probe_loop, hserv (k+1) (by omega) (by omega), Resp.falsy,
        Bool.false_eq_true, if_false, hfull (k+1) (by omega) (by omega),
        hrec]
      have hnk : n - k = (n - (k+1)) + 1 := by omega
      rw [hnk, List.range'_succ]
      simp [List.append_assoc]

/-- Traversal of the probe loop when pages up to `m-1` are full pages
and the request for page `m` comes back as a value `r` that is not a
page: the loop hands back `stop_result r`. -/
theorem probe_loop_stop (server : Query → Resp) (pg : Nat → Page)
    (m ipp : Nat) (r : Resp)
    (hserv : ∀ k, 2 ≤ k → k < m →
      server { page := some k, itemsPerPage := some ipp } = .paged (pg k))
    (hfull : ∀ k, 2 ≤ k → k < m → ¬((pg k).data.length < ipp))
    (hr : server { page := some m, itemsPerPage := some ipp } = r)
    (hnp : ∀ p', r ≠ .paged p') :
    ∀ fuel k acc, 1 ≤ k → k < m → m - k ≤ fuel →
      probe_loop server fuel { page := some k, itemsPerPage := some ipp } acc =
        (stop_result r,
         (List.range' (k+1) (m - k)).map
           fun j => ({ page := some j, itemsPerPage := some ipp } : Query)) := by
  intro fuel
  induction fuel with
  | zero => intro k acc _ hkm hfuel; omega
  | succ fuel ih =>
    intro k acc hk1 hkm hfuel
    by_cases hnext : k + 1 = m
    · have hm1 : m - k = 1 := by omega
      simp only [probe_loop, hnext, hr, hm1, List.range'_one, List.map_cons,
        List.map_nil]
      cases r with
      | err e => simp [stop_result, Resp.falsy]
      | null => simp [stop_result, Resp.falsy]
      | emptyDict => simp [stop_result, Resp.falsy]
      | flat xs => cases xs <;> simp [stop_result, Resp.falsy]
      | paged p' => exact absurd rfl (hnp p')
    · have hrec := ih (k+1) (acc ++ (pg (k+1)).data) (by omega) (by omega)
        (by omega)
      simp only [probe_loop, hserv (k+1) (by omega) (by omega), Resp.falsy,
        Bool.false_eq_true, if_false, hfull (k+1) (by omega) (by omega),
        hrec]
      have hmk : m - k = (m - (k+1)) + 1 := by omega
      rw [hmk, List.range'_succ]
      simp

/-- C4 (amended): when the caller set neither `itemsPerPage` nor
`page`, the probing paginator forces `itemsPerPage = 100` and
`page = 1`, issues one request per fetched page (the issued queries are
exactly pages `1 … n` with `itemsPerPage = 100`), appends each page's
records in order, and terminates exactly at the first loop-fetched page
— the second or later; the first page's size is never checked — holding
strictly fewer than 100 records: loop-fetched pages before `n` are not
short (page 1 may be), page `n` is, and exactly `n ≥ 2` requests are
made returning all `n` pages' records. -/
theorem probe_paginate_fetches_until_short_page
    (server : Query → Resp) (pg : Nat → Page) (n fuel : Nat) (q0 : Query)
    (hq0p : q0.page = Option.none) (hq0i : q0.itemsPerPage = Option.none)
    (hserv : ∀ k, 1 ≤ k → k ≤ n →
      server { page := some k, itemsPerPage := some 100 } = .paged (pg k))
    (hfull : ∀ k, 2 ≤ k → k < n → ¬((pg k).data.length < 100))
    (hshort : (pg n).data.length < 100)
    (hn : 2 ≤ n) (hfuel : n - 1 ≤ fuel) :
    repeat_get_request_for_all_unpaginated_records server fuel q0 =
      (.records ((List.range' 1 n).flatMap fun j => (pg j).data),
       (List.range' 1 n).map
         fun j => ({ page := some j, itemsPerPage := some 100 } : Query)) := by
  have hinit : probe_init q0 =
      ({ page := some 1, itemsPerPage := some 100 } : Query) := by
    cases q0
    simp_all [probe_init]
  have hrun := probe_loop_run server pg n 100
    (fun k h2 hk => hserv k (by omega) hk) hfull hshort fuel 1 (pg 1).data
    le_rfl (by omega) (by omega)
  simp only [repeat_get_request_for_all_unpaginated_records, hinit,
    hserv 1 le_rfl (by omega), Resp.falsy, Bool.false_eq_true, if_false,
    hrun]
  have hn1 : n = (n - 1) + 1 := by omega
  rw [hn1, List.range'_succ]
  simp

set_option maxRecDepth 8000 in
/-- C4 counterexample: with a short FIRST page — 43 records under the
forced `itemsPerPage = 100` — the probing paginator does not terminate
at that page: the `while True` loop (api.py lines 521-538) checks only
pages it fetched itself, so a second request is still issued (two
queries, not one) and the 43 records are returned only after page 2
comes back short. -/
theorem probe_paginate_short_first_page_still_requests :
    repeat_get_request_for_all_unpaginated_records probeServerShortFirst 1 {}
      = (.records (List.replicate 43 0),
         [{ page := some 1, itemsPerPage := some 100 },
          { page := some 2, itemsPerPage := some 100 }]) ∧
    (repeat_get_request_for_all_unpaginated_records probeServerShortFirst
      1 {}).2.length ≠ 1 := by
  decide

set_option maxRecDepth 8000 in
/-- Witness for the amended C4: pages of sizes `[100, 100, 43]` give exactly 243
records in 3 requests; pages of sizes `[100, 0]` give exactly 100
records in 2 requests. -/
theorem probe_paginate_fetches_until_short_page_witness :
    (repeat_get_request_for_all_unpaginated_records probeServer3 2 {} =
      (.records (List.replicate 243 0),
       [{ page := some 1, itemsPerPage := some 100 },
        { page := some 2, itemsPerPage := some 100 },
        { page := some 3, itemsPerPage := some 100 }])) ∧
    (repeat_get_request_for_all_unpaginated_records probeServer2 1 {} =
      (.records (List.replicate 100 0),
       [{ page := some 1, itemsPerPage := some 100 },
        { page := some 2, itemsPerPage := some 100 }])) := by
  constructor
  · have h := probe_paginate_fetches_until_short_page probeServer3 probePg3
      3 2 {} rfl rfl
      (by intro k h1 hk; interval_cases k <;> rfl)
      (by intro k h2 hk; interval_cases k; decide)
      (by decide) (by omega) (by omega)
    exact h.trans (by decide)
  · have h := probe_paginate_fetches_until_short_page probeServer2 probePg2
      2 1 {} rfl rfl
      (by intro k h1 hk; interval_cases k <;> rfl)
      (by intro k h2 hk; omega)
      (by decide) (by omega) (by omega)
    exact h.trans (by decide)

/-- C9: in both paginators, a falsy decoded response — exactly Python
`None`, the empty mapping, or the empty list — at any position makes
the paginator return `None`: on the first page the falsy guard returns
`None` directly, and on any later page the loop returns `None`,
discarding the records accumulated from the earlier pages, so an
empty-but-valid JSON response is indistinguishable from a transport
failure. -/
theorem paginators_return_null_on_falsy_page :
    (∀ r : Resp, r.falsy = true ↔
      (r = .null ∨ r = .emptyDict ∨ r = .flat [])) ∧
    (∀ (server : Query → Resp) (q : Query) (fuel : Nat),
      (server q).falsy = true →
      repeat_get_request_for_all_records server fuel q = (.pyNone, [q])) ∧
    (∀ (server : Query → Resp) (pg : Nat → Page) (m : Nat) (q0 : Query)
       (fuel : Nat) (r : Resp), 2 ≤ m →
      server q0 = .paged (pg 1) →
      (∀ k, 2 ≤ k → k < m →
        server { q0 with page := some k } = .paged (pg k)) →
      (∀ k, 1 ≤ k → k < m → (pg k).page = k) →
      (∀ k, 1 ≤ k → k < m → (pg k).isLastPage = false) →
      server { q0 with page := some m } = r → r.falsy = true →
      m - 1 ≤ fuel →
      (repeat_get_request_for_all_records server fuel q0).1 = .pyNone) ∧
    (∀ (server : Query → Resp) (q0 : Query) (fuel : Nat),
      (server (probe_init q0)).falsy = true →
      repeat_get_request_for_all_unpaginated_records server fuel q0 =
        (.pyNone, [probe_init q0])) ∧
    (∀ (server : Query → Resp) (pg : Nat → Page) (m ipp : Nat)
       (q0 : Query) (fuel : Nat) (r : Resp), 2 ≤ m →
      probe_init q0 = { page := some 1, itemsPerPage := some ipp } →
      server { page := some 1, itemsPerPage := some ipp } = .paged (pg 1) →
      (∀ k, 2 ≤ k → k < m →
        server { page := some k, itemsPerPage := some ipp } = .paged (pg k)) →
      (∀ k, 2 ≤ k → k < m → ¬((pg k).data.length < ipp)) →
      server { page := some m, itemsPerPage := some ipp } = r →
      r.falsy = true → m - 1 ≤ fuel →
      (repeat_get_request_for_all_unpaginated_records server fuel q0).1 =
        .pyNone) := by
  have hstopr : ∀ r : Resp, r.falsy = true → stop_result r = .pyNone := by
    intro r h
    simp [stop_result, h]
  refine ⟨?_, ?_, ?_, ?_, ?_⟩
  · intro r
    cases r with
    | flat xs => cases xs <;> simp [Resp.falsy]
    | _ => simp [Resp.falsy]
  · intro server q fuel h
    simp [repeat_get_request_for_all_records, h]
  · intro server pg m q0 fuel r hm hfirst hserv hpage hnotlast hr hfalsy hfuel
    have hnp : ∀ p', r ≠ .paged p' := by
      intro p' h
      subst h
      simp [Resp.falsy] at hfalsy
    have hstop := repeat_loop_stop server pg m q0 r hserv hpage hnotlast hr
      hnp fuel 1 (pg 1).data q0 le_rfl (by omega) (by omega) rfl
    simp [repeat_get_request_for_all_records, hfirst, Resp.falsy, hstop,
      hstopr r hfalsy]
  · intro server q0 fuel h
    simp [repeat_get_request_for_all_unpaginated_records, h]
  · intro server pg m ipp q0 fuel r hm hinit hfirst hserv hfull hr hfalsy
      hfuel
    have hnp : ∀ p', r ≠ .paged p' := by
      intro p' h
      subst h
      simp [Resp.falsy] at hfalsy
    have hstop := probe_loop_stop server pg m ipp r hserv hfull hr hnp fuel 1
      (pg 1).data le_rfl (by omega) (by omega)
    simp [repeat_get_request_for_all_unpaginated_records, hinit, hfirst,
      Resp.falsy, hstop, hstopr r hfalsy]

/-- Witness for C9: an empty mapping as first page, `None` as second
page of a standard run, an empty list as first probe page, and an empty
mapping as second probe page all yield `None`. -/
theorem paginators_return_null_on_falsy_page_witness :
    repeat_get_request_for_all_records (fun _ => Resp.emptyDict) 1 {} =
      (.pyNone, [{}]) ∧
    (repeat_get_request_for_all_records stdServerNullAt2 1 {}).1 = .pyNone ∧
    repeat_get_request_for_all_unpaginated_records (fun _ => Resp.flat []) 1 {}
      = (.pyNone, [{ page := some 1, itemsPerPage := some 100 }]) ∧
    (repeat_get_request_for_all_unpaginated_records probeServerEmptyDictAt2
      1 {}).1 = .pyNone := by
  obtain ⟨-, h2, h3, h4, h5⟩ := paginators_return_null_on_falsy_page
  refine ⟨h2 (fun _ => Resp.emptyDict) {} 1 rfl, ?_, ?_, ?_⟩
  · exact h3 stdServerNullAt2
      (fun _ => { data := [1, 2], page := 1, lastPageNumber := 9,
                  isLastPage := false })
      2 {} 1 .null (by omega) rfl
      (by intro k hk2 hk; omega)
      (by intro k hk1 hk; interval_cases k; rfl)
      (by intro k hk1 hk; interval_cases k; rfl)
      rfl rfl (by omega)
  · exact (h4 (fun _ => Resp.flat []) {} 1 rfl).trans (by decide)
  · exact h5 probeServerEmptyDictAt2 (fun _ => fullPage100) 2 100 {} 1
      .emptyDict (by omega) (by decide) rfl
      (by intro k hk2 hk; omega)
      (by intro k hk2 hk; omega)
      rfl rfl (by omega)

/-! ## Authenticator and pre-call validation claims -/

/-- C3 (code bug): invoked as documented — `login_method='keyring'`,
`login_data=None` — an `invalid_credentials` first response makes
`__authenticate` return failure after a single POST, with no re-prompt
and no retry: api.py line 259 compares `login_data`, not
`login_method`, against `'keyring'`.  The one-retry behaviour the spec
describes is reachable only by passing the string `'keyring'` as
`login_data` (second and third conjuncts: two consecutive
`invalid_credentials` then fail terminally after exactly one retry; a
valid second response then succeeds and stores the token). -/
theorem authenticate_keyring_no_retry_on_invalid_credentials :
    authenticate "keyring" PyVal.pyNone
      (fun _ => LoginJson.errorVal "invalid_credentials") = (.failure, 1) ∧
    authenticate "keyring" (PyVal.str "keyring")
      (fun _ => LoginJson.errorVal "invalid_credentials") = (.failure, 2) ∧
    authenticate "keyring" (PyVal.str "keyring")
      (fun k => if k = 0 then LoginJson.errorVal "invalid_credentials"
                else LoginJson.token "tok") = (.success "tok", 2) := by
  refine ⟨?_, ?_, ?_⟩ <;> rfl

/-- C8 counterexample: an invalid login method name makes
`__authenticate` raise `InvalidLoginAttempt` before any POST — the
caller gets an exception, not a structured error mapping (the method
can only return a boolean or raise); and a missing parameter in
`plenty_api_create_attribute_name` is returned as the one-element list
`[\x7b'error': 'missing_parameter'\x7d]`, not as the mapping itself. -/
theorem invalid_login_method_raises_not_error_mapping :
    authenticate "bogus" PyVal.pyNone (fun _ => LoginJson.token "t") =
      (.raised "invalid login method bogus", 0) ∧
    plenty_api_create_attribute_name ["de", "en"] 0 "de" "Size" =
      .errList "missing_parameter" := by
  constructor <;> rfl

/-- C8 (amended): pre-call validation rejects invalid input before any
network request — zero POSTs, and a result that is never the
network-request outcome — but the rejection shape varies: an invalid
login method name raises `InvalidLoginAttempt` rather than returning an
error mapping; a missing parameter of
`plenty_api_create_attribute_name` yields the one-element list
`[\x7b'error': 'missing_parameter'\x7d]`; an invalid language code yields the
error mapping `\x7b'error': 'invalid_language'\x7d`.  In no case is the
invalid input silently ignored. -/
theorem validation_rejected_before_network :
    (∀ (m : String) (ld : PyVal) (srv : Nat → LoginJson),
      valid_login_methods.contains m = false →
      authenticate m ld srv = (.raised ("invalid login method " ++ m), 0)) ∧
    (∀ (validLangs : List String) (aid : Nat) (lang nm : String),
      (aid = 0 ∨ lang = "" ∨ nm = "") →
      plenty_api_create_attribute_name validLangs aid lang nm =
        .errList "missing_parameter") ∧
    (∀ (validLangs : List String) (aid : Nat) (lang nm : String),
      ¬(aid = 0 ∨ lang = "" ∨ nm = "") →
      validLangs.contains lang = false →
      plenty_api_create_attribute_name validLangs aid lang nm =
        .errMap "invalid_language") := by
  refine ⟨?_, ?_, ?_⟩
  · intro m ld srv h
    unfold authenticate
    rw [if_pos h]
  · intro validLangs aid lang nm h
    simp [plenty_api_create_attribute_name, h]
  · intro validLangs aid lang nm h hlang
    have hgl : get_language validLangs lang = "INVALID_LANGUAGE" := by
      unfold get_language
      rw [hlang]
      simp
    simp [plenty_api_create_attribute_name, h, hgl]

/-- Witness for the amended C8 at concrete invalid inputs. -/
theorem validation_rejected_before_network_witness :
    authenticate "oauth" PyVal.pyNone (fun _ => LoginJson.token "t") =
      (.raised "invalid login method oauth", 0) ∧
    plenty_api_create_attribute_name ["de", "en"] 7 "" "Size" =
      .errList "missing_parameter" ∧
    plenty_api_create_attribute_name ["de", "en"] 7 "xx" "Size" =
      .errMap "invalid_language" := by
  obtain ⟨h1, h2, h3⟩ := validation_rejected_before_network
  exact ⟨h1 "oauth" PyVal.pyNone (fun _ => LoginJson.token "t") (by decide),
    h2 ["de", "en"] 7 "" "Size" (Or.inr (Or.inl rfl)),
    h3 ["de", "en"] 7 "xx" "Size" (by simp) (by decide)⟩

/-- C10: `plenty_api_book_incoming_items` rejects every quantity less
than or equal to zero and `plenty_api_book_outgoing_items` rejects
every quantity greater than or equal to zero, each returning
`\x7b'error': 'invalid_quantity'\x7d` without issuing the PUT request (the
result is the error mapping, never the network outcome); in particular
a quantity of exactly zero is rejected by both. -/
theorem book_items_quantity_validation :
    (∀ quantity : Int, quantity ≤ 0 →
      plenty_api_book_incoming_items quantity = .errMap "invalid_quantity") ∧
    (∀ quantity : Int, 0 ≤ quantity →
      plenty_api_book_outgoing_items quantity = .errMap "invalid_quantity") ∧
    plenty_api_book_incoming_items 0 = .errMap "invalid_quantity" ∧
    plenty_api_book_outgoing_items 0 = .errMap "invalid_quantity" ∧
    (∀ quantity : Int,
      plenty_api_book_incoming_items quantity = .errMap "invalid_quantity" ∨
      plenty_api_book_incoming_items quantity = .network quantity) := by
  refine ⟨?_, ?_, by rfl, by rfl, ?_⟩
  · intro q h
    simp [plenty_api_book_incoming_items, h]
  · intro q h
    simp [plenty_api_book_outgoing_items, h]
  · intro q
    by_cases h : q ≤ 0
    · exact Or.inl (by simp [plenty_api_book_incoming_items, h])
    · exact Or.inr (by simp [plenty_api_book_incoming_items, h])

/-- Witness for C10 at the quantities `-3`, `0` and `5`. -/
theorem book_items_quantity_validation_witness :
    plenty_api_book_incoming_items (-3) = .errMap "invalid_quantity" ∧
    plenty_api_book_outgoing_items 5 = .errMap "invalid_quantity" ∧
    plenty_api_book_incoming_items 0 = .errMap "invalid_quantity" ∧
    plenty_api_book_outgoing_items 0 = .errMap "invalid_quantity" := by
  obtain ⟨h1, h2, h3, h4, -⟩ := book_items_quantity_validation
  exact ⟨h1 (-3) (by omega), h2 5 (by omega), h3, h4⟩

end PlentyApi
